import Mathlib

set_option autoImplicit false

/-!
Shallow embedding of the transactional file-operation core of the
ICJIA/scaffold-2025 repository: path safety (`isPathSafe` in
`src/utils/security.js`, both written variants), atomic writes
(`secureWrite`, two written variants), the checksum store
(`generateChecksum` / `verifyIntegrity` / `storeChecksum`), backup pruning
and the rollback ledger (`src/utils/cleanup.js`), and the backup-before-
destruction control flow of `createProject` (`src/scaffold.js`).

The filesystem is modelled as an association list from absolute path to
file bytes (a `String`).  The SHA-256 digest is abstracted as an arbitrary
function `hash : String → String`: no claim depends on any property of the
hash beyond being a function of the file bytes, so theorems quantify over
it.  Fallible filesystem steps are modelled with `Except`; faults that in
reality come from the outside world (a corrupted write landing on disk, a
deletion failing with EACCES) enter the model as explicit parameters.
-/

namespace Scaffold

/-- Filesystem state: association list from absolute path to file bytes.
Keys are kept unique by construction (`fsSet` erases before consing). -/
abbrev FS := List (String × String)

/-- The in-memory checksum map (`this.checksums` in `security.js`),
path → hex digest. -/
abbrev Cks := List (String × String)

/-- `fs.existsSync` / `fs.readFileSync`: look a path up in the filesystem. -/
def fsGet (fs : FS) (p : String) : Option String :=
  fs.lookup p

/-- `fs.unlinkSync`: remove a path (all entries with that key). -/
def fsErase (fs : FS) (p : String) : FS :=
  fs.filter (fun e => e.1 != p)

/-- `fs.writeFileSync` / the write half of `fs.renameSync`: store bytes at
a path, replacing any previous entry. -/
def fsSet (fs : FS) (p v : String) : FS :=
  (p, v) :: fsErase fs p

/-- `fs.existsSync` as a Bool. -/
def fsHas (fs : FS) (p : String) : Bool :=
  (fsGet fs p).isSome

/-- JS `String.prototype.startsWith`, implemented structurally over the
character list so every use is kernel-computable. -/
def strStartsWith (s pre : String) : Bool :=
  pre.toList.isPrefixOf s.toList

/-- `fs.rmSync(p, { recursive: true })`: remove `p` and everything below it. -/
def fsRemoveTree (fs : FS) (p : String) : FS :=
  fs.filter (fun e => !(e.1 == p || strStartsWith e.1 (p ++ "/")))

/-! ## Lexical path resolution (Node's `path.resolve`, POSIX) -/

/-- Split a character list on `'/'` (JS `p.split("/")`), structurally. -/
def splitSlashGo (cur : List Char) : List Char → List String
  | [] => [cur.reverse.asString]
  | c :: rest =>
    if c = '/' then cur.reverse.asString :: splitSlashGo [] rest
    else splitSlashGo (c :: cur) rest

/-- Split a path string into its `'/'`-separated segments. -/
def splitSlash (s : String) : List String :=
  splitSlashGo [] s.toList

/-- One pass of lexical normalization over path segments: drops empty and
`"."` segments, a `".."` segment pops the previous one (clamped at the
root), mirroring Node's `path.resolve` normalization. -/
def collapseSegs : List String → List String → List String
  | acc, [] => acc
  | acc, s :: rest =>
    if s = "" || s = "." then collapseSegs acc rest
    else if s = ".." then collapseSegs acc.dropLast rest
    else collapseSegs (acc ++ [s]) rest

/-- Interpose `"/"` between segments (structural `join`). -/
def joinSegsGo : List String → String
  | [] => ""
  | [s] => s
  | s :: rest => s ++ "/" ++ joinSegsGo rest

/-- Reassemble normalized segments into an absolute path. -/
def joinSegs (segs : List String) : String :=
  "/" ++ joinSegsGo segs

/-- Node `path.resolve(target)` with an explicit working directory: an
absolute target is normalized as-is, a relative one is joined onto `cwd`
first.  Purely lexical (no symlink resolution), as in the source. -/
def resolvePath (cwd p : String) : String :=
  let raw := if strStartsWith p "/" then p else cwd ++ "/" ++ p
  joinSegs (collapseSegs [] (splitSlash raw))

/-- `security.js` `isPathSafe` (both written variants, lines 122-126 and
231-234): resolve the target and test a *raw string* prefix against the
home directory. -/
def isPathSafe (home cwd target : String) : Bool :=
  strStartsWith (resolvePath cwd target) home

/-- The path-safety predicate as the spec words it (§4.1): succeed only if
the resolved path equals the root or has the root as a proper
path-segment-bounded prefix.  Present only to compare against the source's
`isPathSafe`. -/
def pathSafeSpec (home cwd target : String) : Bool :=
  let r := resolvePath cwd target
  r == home || strStartsWith r (home ++ "/")

/-- Claim C1 (code bug): the source's path-safety check accepts the
sibling path `root ++ "-evil"` because it compares a raw string prefix,
where the spec's segment-bounded comparison (and the claim) reject it with
`PathTraversal`; the two other examples of the claim
(`"../../etc/passwd"` rejected, `root ++ "/sub/file"` accepted) behave as
the claim states. -/
theorem c1_sibling_path_accepted :
    isPathSafe "/home/user" "/home/user" "/home/user-evil" = true
      ∧ pathSafeSpec "/home/user" "/home/user" "/home/user-evil" = false
      ∧ isPathSafe "/home/user" "/home/user" "../../etc/passwd" = false
      ∧ isPathSafe "/home/user" "/home/user" "/home/user/sub/file" = true := by
  refine ⟨rfl, rfl, rfl, rfl⟩

/-! ## Basename, dirname, sanitization (Node `path`, POSIX; for the
absolute, slash-separated paths the tool manipulates) -/

/-- Node `path.basename` for absolute paths: the last `'/'`-separated
segment. -/
def baseName (p : String) : String :=
  (splitSlash p).getLastD ""

/-- Node `path.dirname` for absolute paths: everything before the last
segment. -/
def dirName (p : String) : String :=
  let segs := (splitSlash p).dropLast
  if segs.all (· = "") then "/" else joinSegsGo segs

/-- Node `path.join(d, name)` for one absolute directory plus one
slash-free name. -/
def pathJoin (d name : String) : String :=
  if d = "/" then "/" ++ name else d ++ "/" ++ name

/-- `security.js` variant 2 `sanitizeFileName` (lines 241-246): strip
`'/'` and `'\'` characters, then strip NUL bytes. -/
def sanitizeFileName (fileName : String) : String :=
  (((fileName.toList.filter (fun c => !(c == '/' || c == '\\'))).filter
    (fun c => !(c == Char.ofNat 0)))).asString

/-! ## Checksum store (`security.js` `generateChecksum`,
`verifyIntegrity`, `storeChecksum`; identical in both written variants) -/

/-- A thrown JS error: either an ordinary `Error` with a message, or the
`ReferenceError` raised when an identifier is not in scope. -/
inductive JsErr where
  | err (msg : String)
  | refErr (name : String)
  deriving DecidableEq, Repr

/-- `generateChecksum` (lines 12-25): read the file and hash its bytes;
an unreadable path throws (modelled as `Except.error`). -/
def generateChecksum (hash : String → String) (fs : FS) (p : String) :
    Except JsErr String :=
  match fsGet fs p with
  | some bytes => .ok (hash bytes)
  | none => .error (.err "ENOENT")

/-- `verifyIntegrity` (lines 28-39): recompute the digest of the file's
current bytes and compare with `expected`; any error from the read is
caught, logged, and turned into `false`.  The `cks` argument is the
instance's checksum map, which the source method can see but never
consults. -/
def verifyIntegrity (hash : String → String) (fs : FS) (cks : Cks)
    (p expected : String) : Bool :=
  match generateChecksum hash fs p with
  | .ok actual => actual == expected
  | .error _ => false

/-- `storeChecksum` (lines 42-55): hash the file's current bytes and
record the digest in the checksum map; an unreadable path rethrows. -/
def storeChecksum (hash : String → String) (fs : FS) (cks : Cks)
    (p : String) : Except JsErr Cks :=
  match generateChecksum hash fs p with
  | .ok checksum => .ok (fsSet cks p checksum)
  | .error e => .error e

/-! ## Atomic write, variant 1 (`security.js` lines 58-97)

`secureWrite(filePath, content)`:
writes to `filePath + ".tmp"`, computes (and discards) a checksum of the
temp file, checks the integrity of a pre-existing target against the
stored checksum map, renames the temp file over the target and stores the
new checksum.  The catch block deletes `filePath + ".tmp"` when present
and rethrows.  The `written` parameter is the fault model: the bytes that
actually land in the temporary file (`written = content` in a fault-free
run). -/

/-- The guard of variant 1's `secureWrite` (lines 67-76): when the target
already exists and the checksum map holds a digest for it, verify the
target's integrity; otherwise pass. -/
def integrityGuard (hash : String → String) (fs1 : FS) (cks : Cks)
    (filePath : String) : Bool :=
  match fsGet fs1 filePath with
  | none => true
  | some _ =>
    match fsGet cks filePath with
    | none => true
    | some expected => verifyIntegrity hash fs1 cks filePath expected

def secureWrite (hash : String → String) (fs : FS) (cks : Cks)
    (filePath content written : String) : Except JsErr Bool × FS × Cks :=
  let tempPath := filePath ++ ".tmp"
  -- fs.writeFileSync(tempPath, content): `written` lands on disk
  let fs1 := fsSet fs tempPath written
  -- const checksum = this.generateChecksum(tempPath): computed, never used
  -- if (fs.existsSync(filePath)) { integrity check against the stored map }
  if integrityGuard hash fs1 cks filePath then
    -- fs.renameSync(tempPath, filePath)
    let fs2 := fsSet (fsErase fs1 tempPath) filePath written
    -- this.storeChecksum(filePath): hashes the bytes now at filePath
    let cks2 := fsSet cks filePath (hash written)
    (.ok true, fs2, cks2)
  else
    -- throw; catch: existsSync(filePath + ".tmp") → unlinkSync, rethrow
    (.error (.err "File integrity check failed"), fsErase fs1 tempPath, cks)

/-! ## Atomic write, variant 2 (`security.js` lines 306-351)

`secureWrite(filePath, content)`: checks `isPathSafe`, writes to
`filePath + "." + randomHex + ".tmp"`, reads the temp file back and
compares with `content`, renames the temp file onto the *sanitized*
target path and stores its checksum.  `tempPath` is a `const` declared
inside the `try` block, so the catch block's `fs.existsSync(tempPath)`
throws a `ReferenceError`: on every failure path the temporary file is
left behind and the original error is replaced. -/

def secureWriteV2 (hash : String → String) (home cwd : String)
    (fs : FS) (cks : Cks) (filePath content written rnd : String) :
    Except JsErr Bool × FS × Cks :=
  if isPathSafe home cwd filePath then
    let tempPath := filePath ++ "." ++ rnd ++ ".tmp"
    let sanitizedPath := pathJoin (dirName filePath) (sanitizeFileName (baseName filePath))
    -- fs.writeFileSync(tempPath, content): `written` lands on disk
    let fs1 := fsSet fs tempPath written
    -- const writtenContent = fs.readFileSync(tempPath)
    let writtenContent := (fsGet fs1 tempPath).getD ""
    if writtenContent == content then
      -- fs.renameSync(tempPath, sanitizedPath); storeChecksum(sanitizedPath)
      let fs2 := fsSet (fsErase fs1 tempPath) sanitizedPath written
      let cks2 := fsSet cks sanitizedPath (hash written)
      (.ok true, fs2, cks2)
    else
      -- throw Error("Content validation failed after writing");
      -- catch: `tempPath` is out of scope → ReferenceError, no cleanup
      (.error (.refErr "tempPath"), fs1, cks)
  else
    -- throw Error("Cannot write file outside of home directory");
    -- catch: `tempPath` is out of scope → ReferenceError
    (.error (.refErr "tempPath"), fs, cks)

/-- Claim C2 (code bug): in variant 2, a failure at the read-back step
leaves the temporary file behind in the target's directory — the catch
block's cleanup crashes on the out-of-scope `tempPath` — even though the
target itself is untouched.  Concrete run: target `/home/user/f.txt`,
content `"v1"`, read-back `"vX"`. -/
theorem c2_temp_file_left_after_failed_write :
    (secureWriteV2 (fun s => s) "/home/user" "/home/user" [] []
        "/home/user/f.txt" "v1" "vX" "ab").1
      = .error (.refErr "tempPath")
    ∧ fsGet (secureWriteV2 (fun s => s) "/home/user" "/home/user" [] []
        "/home/user/f.txt" "v1" "vX" "ab").2.1 "/home/user/f.txt.ab.tmp"
      = some "vX"
    ∧ fsGet (secureWriteV2 (fun s => s) "/home/user" "/home/user" [] []
        "/home/user/f.txt" "v1" "vX" "ab").2.1 "/home/user/f.txt"
      = none := by
  refine ⟨rfl, rfl, rfl⟩

/-- Claim C3 (code bug): variant 1 computes a checksum of the temporary
file but never compares it to `content`, so bytes that land on disk
differently from `content` are committed to the target with success —
the write does not fail and nothing is deleted.  Concrete run: target
`/home/user/f.txt`, content `"v1"`, bytes on disk `"vX"`. -/
theorem c3_mismatched_content_committed :
    (secureWrite (fun s => s) [] [] "/home/user/f.txt" "v1" "vX").1
      = .ok true
    ∧ fsGet (secureWrite (fun s => s) [] [] "/home/user/f.txt" "v1" "vX").2.1
        "/home/user/f.txt" = some "vX"
    ∧ fsGet (secureWrite (fun s => s) [] [] "/home/user/f.txt" "v1" "vX").2.2
        "/home/user/f.txt" = some "vX" := by
  refine ⟨rfl, rfl, rfl⟩

/-- Setting a path and reading it back yields the stored bytes. -/
theorem fsGet_fsSet_self (fs : FS) (p v : String) :
    fsGet (fsSet fs p v) p = some v := by
  simp [fsGet, fsSet, List.lookup]

/-- Claim C7, counterexample: a target path whose basename contains a
backslash is silently re-routed by variant 2's sanitization — the write
succeeds, but the bytes land at the sanitized path, reading the requested
path back finds nothing, and the checksum map has no digest for it. -/
theorem c7_sanitized_path_roundtrip_fails :
    (secureWriteV2 (fun s => s) "/home/user" "/home/user" [] []
        "/home/user/a\\b.txt" "v1" "v1" "ab").1 = .ok true
    ∧ fsGet (secureWriteV2 (fun s => s) "/home/user" "/home/user" [] []
        "/home/user/a\\b.txt" "v1" "v1" "ab").2.1 "/home/user/a\\b.txt" = none
    ∧ fsGet (secureWriteV2 (fun s => s) "/home/user" "/home/user" [] []
        "/home/user/a\\b.txt" "v1" "v1" "ab").2.2 "/home/user/a\\b.txt" = none
    ∧ fsGet (secureWriteV2 (fun s => s) "/home/user" "/home/user" [] []
        "/home/user/a\\b.txt" "v1" "v1" "ab").2.1 "/home/user/ab.txt"
      = some "v1" := by
  refine ⟨rfl, rfl, rfl, rfl⟩

/-- Claim C7 (amended): the round trip holds for every path the
sanitization leaves unchanged (no backslash or NUL in the basename).
After a fault-free successful `secureWrite` of content `c` to such a path
`p` — by variant 2 under its path-safety precondition, or by variant 1
whenever it succeeds — the stored checksum for `p` is the digest of `c`
and reading `p` back yields exactly `c`. -/
theorem c7_roundtrip_amended :
    (∀ (hash : String → String) (home cwd : String) (fs : FS) (cks : Cks)
        (p c rnd : String),
      pathJoin (dirName p) (sanitizeFileName (baseName p)) = p →
      isPathSafe home cwd p = true →
      (secureWriteV2 hash home cwd fs cks p c c rnd).1 = .ok true
        ∧ fsGet (secureWriteV2 hash home cwd fs cks p c c rnd).2.1 p = some c
        ∧ fsGet (secureWriteV2 hash home cwd fs cks p c c rnd).2.2 p
          = some (hash c))
    ∧ (∀ (hash : String → String) (fs : FS) (cks : Cks) (p c : String),
      (secureWrite hash fs cks p c c).1 = .ok true →
      fsGet (secureWrite hash fs cks p c c).2.1 p = some c
        ∧ fsGet (secureWrite hash fs cks p c c).2.2 p = some (hash c)) := by
  constructor
  · intro hash home cwd fs cks p c rnd hsan hsafe
    simp [secureWriteV2, hsafe, hsan, fsGet_fsSet_self]
  · intro hash fs cks p c hok
    simp only [secureWrite] at hok ⊢
    split at hok
    · simp_all [fsGet_fsSet_self]
    · exact absurd hok (by simp)

/-- Witness for `c7_roundtrip_amended` at a concrete clean path. -/
theorem c7_roundtrip_witness :
    (secureWriteV2 (fun s => s) "/home/user" "/home/user" [] []
        "/home/user/notes.txt" "v1" "v1" "ab").1 = .ok true
    ∧ fsGet (secureWriteV2 (fun s => s) "/home/user" "/home/user" [] []
        "/home/user/notes.txt" "v1" "v1" "ab").2.1 "/home/user/notes.txt"
      = some "v1"
    ∧ fsGet (secureWriteV2 (fun s => s) "/home/user" "/home/user" [] []
        "/home/user/notes.txt" "v1" "v1" "ab").2.2 "/home/user/notes.txt"
      = some "v1" :=
  c7_roundtrip_amended.1 (fun s => s) "/home/user" "/home/user" [] []
    "/home/user/notes.txt" "v1" "ab" rfl rfl

/-- Claim C8, counterexample: for an unreadable path the underlying read
fails, but `verifyIntegrity` swallows the error and returns `false` — no
`IOError` reaches the caller. -/
theorem c8_unreadable_swallowed :
    verifyIntegrity (fun s => s) [] [] "/home/user/f.txt" "d" = false
    ∧ generateChecksum (fun s => s) [] "/home/user/f.txt"
      = .error (.err "ENOENT") :=
  ⟨rfl, rfl⟩

/-- Claim C8 (amended): `verifyIntegrity` recomputes the digest from the
file's current bytes and never consults the cached checksum map (its
result is independent of the map's contents and equals the fresh
digest comparison); for an unreadable path the read error is caught and
logged and the method returns `false` instead of propagating an
`IOError`. -/
theorem c8_verify_recomputes_amended :
    ∀ (hash : String → String) (fs : FS) (cks cks' : Cks)
      (p expected : String),
      verifyIntegrity hash fs cks p expected
        = verifyIntegrity hash fs cks' p expected
      ∧ (∀ bytes, fsGet fs p = some bytes →
          verifyIntegrity hash fs cks p expected = (hash bytes == expected))
      ∧ (fsGet fs p = none →
          verifyIntegrity hash fs cks p expected = false) := by
  intro hash fs cks cks' p expected
  refine ⟨rfl, ?_, ?_⟩
  · intro bytes h
    simp [verifyIntegrity, generateChecksum, h]
  · intro h
    simp [verifyIntegrity, generateChecksum, h]

/-- Witness for `c8_verify_recomputes_amended`: a readable file compares
fresh digests; an unreadable path yields `false` even when the cache
holds a matching digest. -/
theorem c8_verify_witness :
    verifyIntegrity (fun s => s) [("/home/user/f.txt", "v1")] []
      "/home/user/f.txt" "v1" = true
    ∧ verifyIntegrity (fun s => s) [] [("/x", "cached")] "/x" "cached"
      = false := by
  constructor
  · exact ((c8_verify_recomputes_amended (fun s => s)
      [("/home/user/f.txt", "v1")] [] [] "/home/user/f.txt" "v1").2.1
        "v1" rfl).trans rfl
  · exact (c8_verify_recomputes_amended (fun s => s) [] [("/x", "cached")]
      [] "/x" "cached").2.2 rfl

/-! ## Backup pruning (`cleanup.js` `cleanupOldBackups`, lines 41-59)

The vault directory is a list of `(name, mtimeMs)` entries; `now` is
`Date.now()`.  Deletion faults (an `unlinkSync` throwing) are injected by
name.  The whole `forEach` sits inside one try/catch: a throw inside the
callback terminates the iteration, the catch logs and returns, so the
entries after the failing one are left unexamined. -/

/-- `maxBackupAge` (`cleanup.js` line 10): 7 days in milliseconds. -/
def maxBackupAge : Int := 7 * 24 * 60 * 60 * 1000

/-- The `files.forEach` body of `cleanupOldBackups`, with the
abort-on-throw behavior of an exception escaping `forEach`. -/
def pruneGo (now : Int) (faults : List String) :
    List (String × Int) → List (String × Int)
  | [] => []
  | (name, mt) :: rest =>
    if now - mt > maxBackupAge then
      if faults.contains name then (name, mt) :: rest
      else pruneGo now faults rest
    else (name, mt) :: pruneGo now faults rest

/-- `cleanupOldBackups`: prune the vault, never throwing to the caller. -/
def cleanupOldBackups (now : Int) (faults : List String)
    (entries : List (String × Int)) : List (String × Int) :=
  pruneGo now faults entries

/-- Claim C9, counterexample: with two entries both older than 7 days and
the deletion of the first failing, the second old entry survives — the
caught exception ends the scan instead of skipping to the next entry. -/
theorem c9_failure_aborts_scan :
    cleanupOldBackups (maxBackupAge + 1) ["a.bak"] [("a.bak", 0), ("b.bak", 0)]
      = [("a.bak", 0), ("b.bak", 0)]
    ∧ cleanupOldBackups (maxBackupAge + 1) [] [("a.bak", 0), ("b.bak", 0)]
      = [] := by
  refine ⟨by decide, by decide⟩

/-- Claim C9 (amended): with no deletion failure the scan visits every
entry and deletes exactly those strictly older than the 7-day threshold;
a failure to delete one entry is caught and logged and is never fatal to
the caller, but it ends the scan — the failing entry and every entry
after it are left in place. -/
theorem pruneGo_nofault (now : Int) :
    ∀ entries : List (String × Int),
      pruneGo now [] entries
        = entries.filter (fun e => decide (now - e.2 ≤ maxBackupAge))
  | [] => rfl
  | (name, mt) :: rest => by
    rw [pruneGo, List.filter_cons]
    by_cases h : now - mt > maxBackupAge
    · rw [if_pos h, if_neg (by simp : ¬ (([] : List String).contains name = true)),
        if_neg (by simpa using not_le.mpr h)]
      exact pruneGo_nofault now rest
    · rw [if_neg h, if_pos (by simpa using not_lt.mp h)]
      rw [pruneGo_nofault now rest]

theorem c9_prune_amended :
    (∀ (now : Int) (entries : List (String × Int)),
      cleanupOldBackups now [] entries
        = entries.filter (fun e => decide (now - e.2 ≤ maxBackupAge)))
    ∧ (∀ (now : Int) (faults : List String) (name : String) (mt : Int)
        (rest : List (String × Int)),
      now - mt > maxBackupAge → faults.contains name = true →
      cleanupOldBackups now faults ((name, mt) :: rest)
        = (name, mt) :: rest) := by
  constructor
  · intro now entries
    exact pruneGo_nofault now entries
  · intro now faults name mt rest hold hfault
    unfold cleanupOldBackups
    rw [pruneGo, if_pos hold, if_pos hfault]

/-- Witness for `c9_prune_amended`: a 1-day-old entry is retained while
an 8-day-old one is deleted, and a failing deletion leaves the tail
untouched. -/
theorem c9_prune_witness :
    cleanupOldBackups (8 * 24 * 60 * 60 * 1000) []
      [("old.bak", 0), ("new.bak", 7 * 24 * 60 * 60 * 1000)]
      = [("new.bak", 7 * 24 * 60 * 60 * 1000)]
    ∧ cleanupOldBackups (maxBackupAge + 1) ["x.bak"] [("x.bak", 0), ("y.bak", 0)]
      = [("x.bak", 0), ("y.bak", 0)] := by
  constructor
  · exact ((c9_prune_amended.1 (8 * 24 * 60 * 60 * 1000)
      [("old.bak", 0), ("new.bak", 7 * 24 * 60 * 60 * 1000)]).trans (by decide))
  · exact c9_prune_amended.2 (maxBackupAge + 1) ["x.bak"] "x.bak" 0
      [("y.bak", 0)] (by decide) (by decide)

/-! ## Operation ledger and rollback (`cleanup.js` lines 96-183)

`this.operations` is the ledger array; `registerOperation` appends a copy
of the given operation enriched with the instance's `operationId` and a
timestamp.  `rollback` reverses the array **in place**
(`this.operations.reverse()`), iterates it, undoes each operation inside
a per-operation try/catch that logs and continues, and returns nothing
(`Promise<void>`): the captured `(operation, error)` pairs below model
what is logged, not a return value.  External per-path faults (EACCES
etc.) are injected via `faults`; the effect of `unzip` restoring a
directory archive is abstracted as a parameter `unzipEff` (no claim
depends on it). -/

/-- One ledger entry, as built by `registerOperation` (lines 103-109). -/
structure Operation where
  type : String
  path : String
  backupPath : Option String
  operationId : String
  timestamp : String
  deriving DecidableEq, Repr

/-- The `Cleanup` instance state that the claims touch: the operations
array and the per-instance correlation id. -/
structure Ledger where
  operations : List Operation
  operationId : String
  deriving DecidableEq, Repr

/-- `registerOperation` (lines 103-109): append-only push of the
operation enriched with `operationId` and a timestamp. -/
def registerOperation (l : Ledger) (op : Operation) (ts : String) : Ledger :=
  { l with operations :=
      l.operations ++ [{ op with operationId := l.operationId, timestamp := ts }] }

/-- One arm of the rollback `switch` (lines 126-163): undo a single
operation.  A fault on the operation's path makes the filesystem call
throw; unknown `type` strings fall through silently. -/
def rollbackStep (unzipEff : FS → String → String → FS)
    (faults : List String) (fs : FS) (op : Operation) : Except String FS :=
  if op.type == "create" then
    if fsHas fs op.path then
      if faults.contains op.path then .error "unlink failed"
      else .ok (fsErase fs op.path)
    else .ok fs
  else if op.type == "overwrite" then
    match op.backupPath with
    | some b =>
      if fsHas fs b then
        if faults.contains op.path then .error "copy failed"
        else .ok (match fsGet fs b with
                  | some v => fsSet fs op.path v
                  | none => fs)
      else .ok fs
    | none => .ok fs
  else if op.type == "createDir" then
    if fsHas fs op.path then
      if faults.contains op.path then .error "rm failed"
      else .ok (fsRemoveTree fs op.path)
    else .ok fs
  else if op.type == "overwriteDir" then
    match op.backupPath with
    | some b =>
      if fsHas fs b then
        if faults.contains op.path then .error "unzip failed"
        else .ok (unzipEff fs b (dirName op.path))
      else .ok fs
    | none => .ok fs
  else .ok fs

/-- The rollback loop (lines 124-171) over an already-ordered list: each
step runs inside its own try/catch — an error is captured (logged) and
processing continues with the remaining operations. -/
def rollbackRun (unzipEff : FS → String → String → FS)
    (faults : List String) (fs : FS) :
    List Operation → FS × List (Operation × String)
  | [] => (fs, [])
  | op :: rest =>
    match rollbackStep unzipEff faults fs op with
    | .ok fs' => rollbackRun unzipEff faults fs' rest
    | .error e =>
      let r := rollbackRun unzipEff faults fs rest
      (r.1, (op, e) :: r.2)

/-- `rollback` (lines 116-183): reverse `this.operations` in place, run
the loop over the reversed array, and return.  The result models the
post-call ledger (with its mutated array), the filesystem, and the list
of `(operation, error)` pairs that were logged; the JS method itself
returns `undefined`. -/
def rollback (unzipEff : FS → String → String → FS)
    (faults : List String) (fs : FS) (l : Ledger) :
    Ledger × FS × List (Operation × String) :=
  let processed := l.operations.reverse
  let r := rollbackRun unzipEff faults fs processed
  ({ l with operations := processed }, r.1, r.2)

/-- The order in which a call to `rollback` visits the recorded
operations: the for-of loop iterates the freshly reversed array. -/
def rollbackOrder (l : Ledger) : List Operation :=
  l.operations.reverse

/-- Claim C4, counterexample: a single `overwrite` operation whose backup
file is missing is silently skipped — `rollback` captures (and logs) no
failure at all and restores nothing, where the claim requires a
RollbackReport listing exactly one failure. -/
theorem c4_missing_backup_not_reported :
    (rollback (fun fs _ _ => fs) []
        [("/home/user/proj/f.txt", "new")]
        { operations := [{ type := "overwrite", path := "/home/user/proj/f.txt",
                           backupPath := some "/home/user/.scaffold-backups/f.txt-x.bak",
                           operationId := "id0", timestamp := "t0" }],
          operationId := "id0" }).2.2 = []
    ∧ (rollback (fun fs _ _ => fs) []
        [("/home/user/proj/f.txt", "new")]
        { operations := [{ type := "overwrite", path := "/home/user/proj/f.txt",
                           backupPath := some "/home/user/.scaffold-backups/f.txt-x.bak",
                           operationId := "id0", timestamp := "t0" }],
          operationId := "id0" }).2.1
      = [("/home/user/proj/f.txt", "new")] := by
  refine ⟨rfl, rfl⟩

/-- Claim C4 (amended): `rollback` processes the recorded operations in
strict reverse insertion order; a failure while undoing one operation is
caught and logged and processing continues with the earlier operations
(the logged failures are drawn, in order, from the reverse-ordered pass);
a restore whose backup file is missing is silently skipped without being
recorded as a failure; `rollback` returns no report — it aggregates
nothing for its caller — and raises no error. -/
theorem c4_rollback_best_effort_amended :
    (∀ (u : FS → String → String → FS) (faults : List String) (fs : FS)
        (l : Ledger),
      ((rollback u faults fs l).2.2.map Prod.fst).Sublist (rollbackOrder l))
    ∧ (∀ (u : FS → String → String → FS) (faults : List String) (fs : FS)
        (op : Operation) (rest : List Operation) (e : String),
      rollbackStep u faults fs op = .error e →
      rollbackRun u faults fs (op :: rest)
        = ((rollbackRun u faults fs rest).1,
           (op, e) :: (rollbackRun u faults fs rest).2))
    ∧ (∀ (u : FS → String → String → FS) (faults : List String) (fs : FS)
        (p b oid ts : String),
      fsGet fs b = none →
      rollbackStep u faults fs
        { type := "overwrite", path := p, backupPath := some b,
          operationId := oid, timestamp := ts } = .ok fs) := by
  refine ⟨?_, ?_, ?_⟩
  · intro u faults fs l
    have key : ∀ (ops : List Operation) (fs : FS),
        ((rollbackRun u faults fs ops).2.map Prod.fst).Sublist ops := by
      intro ops
      induction ops with
      | nil => intro fs; simp [rollbackRun]
      | cons op rest ih =>
        intro fs
        unfold rollbackRun
        cases h : rollbackStep u faults fs op with
        | ok fs' => exact (ih fs').cons op
        | error e => exact (ih fs).cons₂ op
    exact key l.operations.reverse fs
  · intro u faults fs op rest e h
    simp only [rollbackRun, h]
  · intro u faults fs p b oid ts h
    simp [rollbackStep, fsHas, h]

/-- Witness for `c4_rollback_best_effort_amended`: a concrete two-step
rollback where the newer operation's deletion faults — the older one is
still undone and the logged failure list holds exactly the faulted
operation; and a concrete missing-backup skip. -/
theorem c4_rollback_best_effort_witness :
    ((rollback (fun fs _ _ => fs) ["/home/user/proj/b.txt"]
        [("/home/user/proj/a.txt", "va"), ("/home/user/proj/b.txt", "vb")]
        { operations :=
            [{ type := "create", path := "/home/user/proj/a.txt",
               backupPath := none, operationId := "id0", timestamp := "t1" },
             { type := "create", path := "/home/user/proj/b.txt",
               backupPath := none, operationId := "id0", timestamp := "t2" }],
          operationId := "id0" }).2.2.map Prod.fst).Sublist
      (rollbackOrder
        { operations :=
            [{ type := "create", path := "/home/user/proj/a.txt",
               backupPath := none, operationId := "id0", timestamp := "t1" },
             { type := "create", path := "/home/user/proj/b.txt",
               backupPath := none, operationId := "id0", timestamp := "t2" }],
          operationId := "id0" })
    ∧ rollbackStep (fun fs _ _ => fs) [] []
        { type := "overwrite", path := "/home/user/proj/f.txt",
          backupPath := some "/home/user/.scaffold-backups/f.txt-x.bak",
          operationId := "id0", timestamp := "t0" } = .ok [] := by
  constructor
  · exact c4_rollback_best_effort_amended.1 (fun fs _ _ => fs)
      ["/home/user/proj/b.txt"]
      [("/home/user/proj/a.txt", "va"), ("/home/user/proj/b.txt", "vb")]
      { operations :=
          [{ type := "create", path := "/home/user/proj/a.txt",
             backupPath := none, operationId := "id0", timestamp := "t1" },
           { type := "create", path := "/home/user/proj/b.txt",
             backupPath := none, operationId := "id0", timestamp := "t2" }],
        operationId := "id0" }
  · exact c4_rollback_best_effort_amended.2.2 (fun fs _ _ => fs) []
      [] "/home/user/proj/f.txt" "/home/user/.scaffold-backups/f.txt-x.bak"
      "id0" "t0" rfl

/-- Claim C5, counterexample: after `rollback()` has completed, a further
`registerOperation` call is still accepted (the array grows), and the
newly recorded operation is processed by a second rollback pass. -/
theorem c5_record_after_rollback_accepted :
    (registerOperation
        (rollback (fun fs _ _ => fs) [] []
          (registerOperation { operations := [], operationId := "id0" }
            { type := "create", path := "/home/user/proj/a.txt",
              backupPath := none, operationId := "", timestamp := "" } "t1")).1
        { type := "create", path := "/home/user/proj/b.txt",
          backupPath := none, operationId := "", timestamp := "" }
        "t2").operations.length = 2
    ∧ ({ type := "create", path := "/home/user/proj/b.txt",
         backupPath := none, operationId := "id0", timestamp := "t2" }
        : Operation) ∈ rollbackOrder
        (registerOperation
          (rollback (fun fs _ _ => fs) [] []
            (registerOperation { operations := [], operationId := "id0" }
              { type := "create", path := "/home/user/proj/a.txt",
                backupPath := none, operationId := "", timestamp := "" } "t1")).1
          { type := "create", path := "/home/user/proj/b.txt",
            backupPath := none, operationId := "", timestamp := "" }
          "t2") := by
  refine ⟨rfl, by decide⟩

/-- Claim C5 (amended): the ledger has no phases and is never closed —
`registerOperation` appends unconditionally, including after any number
of `rollback` calls (each of which does run to completion), and an
operation recorded after a rollback is part of the next rollback pass. -/
theorem c5_single_phase_ledger_amended :
    ∀ (u : FS → String → String → FS) (faults : List String) (fs : FS)
      (l : Ledger) (op : Operation) (ts : String),
      (registerOperation (rollback u faults fs l).1 op ts).operations.length
        = (rollback u faults fs l).1.operations.length + 1
      ∧ ({ op with operationId := (rollback u faults fs l).1.operationId,
                   timestamp := ts })
          ∈ rollbackOrder (registerOperation (rollback u faults fs l).1 op ts) := by
  intro u faults fs l op ts
  constructor
  · simp [registerOperation]
  · simp [registerOperation, rollbackOrder]

/-- Claim C10 (confirmed): `rollback` reverses the in-memory operations
array in place and never clears it — afterwards the ledger holds exactly
the recorded operations in reversed order, and a second `rollback` call
iterates them in the original forward (recording) order. -/
theorem c10_rollback_reverses_in_place :
    ∀ (u : FS → String → String → FS) (faults : List String) (fs fs' : FS)
      (l : Ledger),
      (rollback u faults fs l).1.operations = l.operations.reverse
      ∧ rollbackOrder (rollback u faults fs l).1 = l.operations
      ∧ (rollback u faults fs' (rollback u faults fs l).1).1.operations
        = l.operations := by
  intro u faults fs fs' l
  refine ⟨rfl, ?_, ?_⟩
  · simp [rollback, rollbackOrder]
  · simp [rollback]

/-! ## Backup-before-destruction in `createProject` (`scaffold.js` 45-252)

`createProject` is embedded as the sequence of backup and destructive
filesystem events it emits, with the interactive prompt answers and the
success of each backup supplied as booleans.  Per target file the loop
consults: selected? exists? overwrite-confirmed? backup succeeded?  A
thrown backup error aborts the run (caught by the outer catch, which
triggers rollback and returns `false`). -/

/-- One entry of the `files` argument of `createProject`, together with
the environment's answers for it: whether it was selected, whether the
target already exists, the user's overwrite answer, and whether
`createBackup` succeeds for it. -/
structure FileReq where
  name : String
  selected : Bool
  present : Bool
  overwriteAns : Bool
  backupOk : Bool
  deriving DecidableEq, Repr

/-- Backup and destructive filesystem events emitted by `createProject`,
in program order.  `writeFile p existed` is the `secureWrite` call on `p`
(`existed` records whether `p` was already on disk). -/
inductive Ev where
  | backupDir (p : String)
  | backupFail (p : String)
  | removeDir (p : String)
  | makeDir (p : String)
  | backupFile (p : String)
  | writeFile (p : String) (existed : Bool)
  deriving DecidableEq, Repr

/-- The `for (const [file, selected] of Object.entries(files))` loop
(`scaffold.js` 108-234): skip unselected files; for an existing target
ask, then back it up before writing (a backup failure throws and aborts
the loop); for a fresh target write directly. -/
def fileLoop (dir : String) : List FileReq → List Ev × Bool
  | [] => ([], true)
  | f :: rest =>
    if f.selected then
      if f.present then
        if f.overwriteAns then
          if f.backupOk then
            let r := fileLoop dir rest
            (Ev.backupFile (dir ++ "/" ++ f.name)
              :: Ev.writeFile (dir ++ "/" ++ f.name) true :: r.1, r.2)
          else ([Ev.backupFail (dir ++ "/" ++ f.name)], false)
        else fileLoop dir rest
      else
        let r := fileLoop dir rest
        (Ev.writeFile (dir ++ "/" ++ f.name) false :: r.1, r.2)
    else fileLoop dir rest

/-- `createProject` (`scaffold.js` 45-252) as its event trace.  When the
target directory exists and is non-empty, the two confirmation prompts
are consulted and a directory backup is taken before `fs.rmSync`; when it
exists but is **empty**, `fs.rmSync(dir, ...)` runs with no prompt and no
backup (line 96 sits outside the `isDirectoryNotEmpty` guard). -/
def createProjectTrace (dir : String)
    (dirExists dirNonEmpty ansOverwrite ansConfirm backupDirOk : Bool)
    (files : List FileReq) : List Ev × Bool :=
  if dirExists then
    if dirNonEmpty then
      if ansOverwrite then
        if ansConfirm then
          if backupDirOk then
            let r := fileLoop dir files
            (Ev.backupDir dir :: Ev.removeDir dir :: Ev.makeDir dir :: r.1, r.2)
          else ([Ev.backupFail dir], false)
        else ([], false)
      else ([], false)
    else
      let r := fileLoop dir files
      (Ev.removeDir dir :: Ev.makeDir dir :: r.1, r.2)
  else
    let r := fileLoop dir files
    (Ev.makeDir dir :: r.1, r.2)

/-- Guard for one event in the file-overwrite sense: a `secureWrite` to an
already-existing target must have been preceded (`pre`) by a successful
file backup of the same path. -/
def writeGuardOk (pre : List Ev) : Ev → Bool
  | Ev.writeFile p true => decide (Ev.backupFile p ∈ pre)
  | _ => true

/-- Every overwrite-write in the trace is preceded by its file backup. -/
def writesGuardedGo (pre : List Ev) : List Ev → Bool
  | [] => true
  | e :: rest => writeGuardOk pre e && writesGuardedGo (pre ++ [e]) rest

def writesGuarded (t : List Ev) : Bool :=
  writesGuardedGo [] t

/-- Guard for one event in the directory sense: a removal of the existing
target directory must have been preceded by a successful directory
backup of the same path. -/
def dirGuardOk (pre : List Ev) : Ev → Bool
  | Ev.removeDir p => decide (Ev.backupDir p ∈ pre)
  | _ => true

/-- Every directory removal in the trace is preceded by its backup. -/
def dirGuardedGo (pre : List Ev) : List Ev → Bool
  | [] => true
  | e :: rest => dirGuardOk pre e && dirGuardedGo (pre ++ [e]) rest

def dirGuarded (t : List Ev) : Bool :=
  dirGuardedGo [] t

theorem writeGuardOk_mono (pre pre' : List Ev) (e : Ev)
    (hsub : pre ⊆ pre') (h : writeGuardOk pre e = true) :
    writeGuardOk pre' e = true := by
  cases e with
  | writeFile p existed =>
    cases existed with
    | false => rfl
    | true =>
      simp only [writeGuardOk, decide_eq_true_eq] at h ⊢
      exact hsub h
  | backupDir p => rfl
  | backupFail p => rfl
  | removeDir p => rfl
  | makeDir p => rfl
  | backupFile p => rfl

theorem writesGuardedGo_mono :
    ∀ (evs pre pre' : List Ev), pre ⊆ pre' →
      writesGuardedGo pre evs = true → writesGuardedGo pre' evs = true
  | [], _, _, _, _ => rfl
  | e :: rest, pre, pre', hsub, h => by
    rw [writesGuardedGo, Bool.and_eq_true] at h ⊢
    refine ⟨writeGuardOk_mono pre pre' e hsub h.1, ?_⟩
    refine writesGuardedGo_mono rest (pre ++ [e]) (pre' ++ [e]) ?_ h.2
    intro x hx
    rcases List.mem_append.mp hx with h1 | h1
    · exact List.mem_append.mpr (Or.inl (hsub h1))
    · exact List.mem_append.mpr (Or.inr h1)

/-- The file loop's own trace keeps every overwrite-write guarded,
whatever events came before it. -/
theorem fileLoop_writes_guarded (dir : String) :
    ∀ (files : List FileReq) (pre : List Ev),
      writesGuardedGo pre (fileLoop dir files).1 = true
  | [], _ => rfl
  | f :: rest, pre => by
    by_cases hs : f.selected = true
    · by_cases hp : f.present = true
      · by_cases ho : f.overwriteAns = true
        · by_cases hb : f.backupOk = true
          · simp only [fileLoop, hs, hp, ho, hb, if_true]
            rw [writesGuardedGo, writesGuardedGo, Bool.and_eq_true,
              Bool.and_eq_true]
            refine ⟨rfl, ?_, fileLoop_writes_guarded dir rest _⟩
            simp [writeGuardOk]
          · simp only [fileLoop, hs, hp, ho, if_true, hb, if_false]
            rfl
        · simp only [fileLoop, hs, hp, if_true, ho, if_false]
          exact fileLoop_writes_guarded dir rest pre
      · simp only [fileLoop, hs, if_true, hp, if_false, writesGuardedGo,
          Bool.and_eq_true]
        exact ⟨rfl, fileLoop_writes_guarded dir rest _⟩
    · simp only [fileLoop, hs, if_false]
      exact fileLoop_writes_guarded dir rest pre

/-- The file loop emits neither directory removals nor directory
backups. -/
theorem fileLoop_no_dir_events (dir : String) :
    ∀ (files : List FileReq) (p : String),
      Ev.removeDir p ∉ (fileLoop dir files).1
      ∧ Ev.backupDir p ∉ (fileLoop dir files).1
  | [], _ => by simp [fileLoop]
  | f :: rest, p => by
    have ih := fileLoop_no_dir_events dir rest p
    by_cases hs : f.selected = true
    · by_cases hp : f.present = true
      · by_cases ho : f.overwriteAns = true
        · by_cases hb : f.backupOk = true
          · simp only [fileLoop, hs, hp, ho, hb, if_true]
            simp_all
          · simp only [fileLoop, hs, hp, ho, if_true, hb, if_false]
            simp
        · simp only [fileLoop, hs, hp, if_true, ho, if_false]
          exact ih
      · simp only [fileLoop, hs, if_true, hp, if_false]
        simp_all
    · simp only [fileLoop, hs, if_false]
      exact ih

/-- A trace with no directory removals is trivially dir-guarded. -/
theorem dirGuardedGo_of_no_removeDir :
    ∀ (evs pre : List Ev), (∀ p, Ev.removeDir p ∉ evs) →
      dirGuardedGo pre evs = true
  | [], _, _ => rfl
  | e :: rest, pre, h => by
    rw [dirGuardedGo, Bool.and_eq_true]
    constructor
    · cases e with
      | removeDir p => exact absurd (List.mem_cons_self _ _) (h p)
      | backupDir p => rfl
      | backupFail p => rfl
      | makeDir p => rfl
      | backupFile p => rfl
      | writeFile p existed => rfl
    · refine dirGuardedGo_of_no_removeDir rest (pre ++ [e]) ?_
      intro p hp
      exact h p (List.mem_cons_of_mem _ hp)

/-- Claim C6, counterexample: an existing but **empty** target directory
is deleted by `createProject` without any backup having been created —
the trace starts with the removal and contains no directory backup —
falsifying "at no point does a destructive change to an existing target
precede the successful creation of its backup". -/
theorem c6_empty_dir_removed_without_backup :
    dirGuarded (createProjectTrace "/home/user/proj" true false true true true
      [{ name := "index.html", selected := true, present := false,
         overwriteAns := false, backupOk := true }]).1 = false
    ∧ (createProjectTrace "/home/user/proj" true false true true true
      [{ name := "index.html", selected := true, present := false,
         overwriteAns := false, backupOk := true }]).1
      = [Ev.removeDir "/home/user/proj", Ev.makeDir "/home/user/proj",
         Ev.writeFile "/home/user/proj/index.html" false] := by
  refine ⟨by decide, by decide⟩

/-- Claim C6 (amended): every `secureWrite` to an already-existing file is
preceded by a successful backup of that file, and when the target
directory exists and is non-empty its removal is preceded by a successful
directory backup; a failed backup aborts the run before the destructive
step.  The exception the counterexample forces: an existing but empty
target directory is removed without any backup. -/
theorem c6_backup_before_destruction_amended :
    ∀ (dir : String) (de dne ao ac bo : Bool) (files : List FileReq),
      writesGuarded (createProjectTrace dir de dne ao ac bo files).1 = true
      ∧ (dne = true →
          dirGuarded (createProjectTrace dir de dne ao ac bo files).1 = true)
      ∧ (de = true → dne = true → ao = true → ac = true → bo = false →
          (createProjectTrace dir de dne ao ac bo files).1
            = [Ev.backupFail dir])
      ∧ (de = true → dne = false →
          (createProjectTrace dir de dne ao ac bo files).1
            = Ev.removeDir dir :: Ev.makeDir dir :: (fileLoop dir files).1
          ∧ Ev.backupDir dir ∉ (createProjectTrace dir de dne ao ac bo files).1) := by
  intro dir de dne ao ac bo files
  refine ⟨?_, ?_, ?_, ?_⟩
  · cases de with
    | false =>
      simp only [createProjectTrace, if_false, writesGuarded, writesGuardedGo,
        Bool.and_eq_true]
      exact ⟨rfl, fileLoop_writes_guarded dir files _⟩
    | true =>
      cases dne with
      | false =>
        simp only [createProjectTrace, if_true, if_false, writesGuarded,
          writesGuardedGo, Bool.and_eq_true]
        exact ⟨rfl, rfl, fileLoop_writes_guarded dir files _⟩
      | true =>
        cases ao with
        | false => simp [createProjectTrace, writesGuarded, writesGuardedGo]
        | true =>
          cases ac with
          | false => simp [createProjectTrace, writesGuarded, writesGuardedGo]
          | true =>
            cases bo with
            | false => simp [createProjectTrace, writesGuarded, writesGuardedGo,
                writeGuardOk]
            | true =>
              simp only [createProjectTrace, if_true, writesGuarded,
                writesGuardedGo, Bool.and_eq_true]
              exact ⟨rfl, rfl, rfl, fileLoop_writes_guarded dir files _⟩
  · intro hdne
    subst hdne
    cases de with
    | false =>
      simp only [createProjectTrace, if_false, dirGuarded, dirGuardedGo,
        Bool.and_eq_true]
      refine ⟨rfl, dirGuardedGo_of_no_removeDir _ _ ?_⟩
      intro p
      exact (fileLoop_no_dir_events dir files p).1
    | true =>
      cases ao with
      | false => simp [createProjectTrace, dirGuarded, dirGuardedGo]
      | true =>
        cases ac with
        | false => simp [createProjectTrace, dirGuarded, dirGuardedGo]
        | true =>
          cases bo with
          | false => simp [createProjectTrace, dirGuarded, dirGuardedGo,
              dirGuardOk]
          | true =>
            simp only [createProjectTrace, if_true, dirGuarded, dirGuardedGo,
              Bool.and_eq_true]
            refine ⟨rfl, by simp [dirGuardOk], rfl,
              dirGuardedGo_of_no_removeDir _ _ ?_⟩
            intro p
            exact (fileLoop_no_dir_events dir files p).1
  · intro hde hdne hao hac hbo
    subst hde; subst hdne; subst hao; subst hac; subst hbo
    simp [createProjectTrace]
  · intro hde hdne
    subst hde; subst hdne
    constructor
    · simp [createProjectTrace]
    · simp only [createProjectTrace, if_true, if_false]
      intro hmem
      rcases List.mem_cons.mp hmem with h1 | h1
      · exact Ev.noConfusion h1
      · rcases List.mem_cons.mp h1 with h2 | h2
        · exact Ev.noConfusion h2
        · exact (fileLoop_no_dir_events dir files dir).2 h2

/-- Witness for `c6_backup_before_destruction_amended`: a concrete run
overwriting a non-empty directory holding one existing file keeps both
guards satisfied. -/
theorem c6_backup_before_destruction_witness :
    writesGuarded (createProjectTrace "/home/user/proj" true true true true true
      [{ name := "f.txt", selected := true, present := true,
         overwriteAns := true, backupOk := true }]).1 = true
    ∧ dirGuarded (createProjectTrace "/home/user/proj" true true true true true
      [{ name := "f.txt", selected := true, present := true,
         overwriteAns := true, backupOk := true }]).1 = true := by
  have h := c6_backup_before_destruction_amended "/home/user/proj"
    true true true true true
    [{ name := "f.txt", selected := true, present := true,
       overwriteAns := true, backupOk := true }]
  exact ⟨h.1, h.2.1 rfl⟩

end Scaffold
